import Mathlib

/-!
# Verification of the loz-watch utility modules

Shallow embedding of the pure logic of `src/lib/local-intelligence.ts`,
`src/lib/sanitize.ts` and the map component's client state handlers in
`src/lib/weather-alerts.ts`, together with proofs about that logic.

Modelling conventions:
* JavaScript strings are modelled as Lean `String`/`List Char`.  Case
  conversion (`toLowerCase`) is modelled by `Char.toLower`, which agrees with
  JavaScript on ASCII text (the only text the classifiers compare against).
* `String.prototype.includes` is modelled by `includes` below (substring
  containment at some offset).
* JavaScript numbers appearing in the geocoding arithmetic are modelled as
  rationals; the inputs involved (character-code sums, `% 200`, `* 13`) are
  exact integers far below 2^53, so the integer arithmetic is exact in
  JavaScript as well.
* `new Date(s).getTime()` is modelled as an abstract parameter
  `parseDate : String → Option Int`, `none` standing for the `NaN` time value
  of an `Invalid Date`.  Note the ECMAScript `Date` constructor never throws
  on a string argument: an unparseable string yields an `Invalid Date`.
-/

/-- `s.includes(pat)`: `pat` occurs as a contiguous substring of `s`. -/
def includes (s pat : String) : Bool :=
  (List.range (s.data.length + 1)).any fun i => pat.data.isPrefixOf (s.data.drop i)

/-- `s.toLowerCase()` on the character list (ASCII case mapping). -/
def jsToLower (s : String) : String :=
  ⟨s.data.map Char.toLower⟩

/-- `IncidentCategory` from `local-intelligence.ts` line 7. -/
inductive IncidentCategory where
  | crime
  | accident
  | boating
  | fire
  | advisory
  | other
  deriving DecidableEq, BEq, Repr

/-- `IncidentSeverity` from `local-intelligence.ts` line 9. -/
inductive IncidentSeverity where
  | info
  | advisory
  | alert
  deriving DecidableEq, BEq, Repr

/-- The lowered concatenation built at `local-intelligence.ts` line 37:
`` `${type} ${title} ${summary || ''}`.toLowerCase() `` (an absent or empty
summary both contribute the empty string). -/
def incidentText (type title : String) (summary : Option String) : String :=
  jsToLower (type ++ " " ++ title ++ " " ++ summary.getD "")

/-- `normalizeIncidentType` (`local-intelligence.ts` lines 36-56). -/
def normalizeIncidentType (type title : String) (summary : Option String) :
    IncidentCategory :=
  if includes (incidentText type title summary) "boat"
      || includes (incidentText type title summary) "marine"
      || includes (incidentText type title summary) "watercraft" then .boating
  else if includes (incidentText type title summary) "fire"
      || includes (incidentText type title summary) "blaze"
      || includes (incidentText type title summary) "burn" then .fire
  else if includes (incidentText type title summary) "accident"
      || includes (incidentText type title summary) "crash"
      || includes (incidentText type title summary) "collision" then .accident
  else if includes (incidentText type title summary) "crime"
      || includes (incidentText type title summary) "arrest"
      || includes (incidentText type title summary) "theft"
      || includes (incidentText type title summary) "police" then .crime
  else if includes (incidentText type title summary) "advisory"
      || includes (incidentText type title summary) "warning"
      || includes (incidentText type title summary) "alert" then .advisory
  else .other

/-- The lowered `` `${title} ${summary || ''}` `` built at
`local-intelligence.ts` line 66. -/
def severityText (title : String) (summary : Option String) : String :=
  jsToLower (title ++ " " ++ summary.getD "")

/-- `determineIncidentSeverity` (`local-intelligence.ts` lines 61-84). -/
def determineIncidentSeverity (type : IncidentCategory) (title : String)
    (summary : Option String) : IncidentSeverity :=
  if type = .fire
      ∨ (type = .accident
          ∧ (includes (severityText title summary) "fatal"
              || includes (severityText title summary) "serious")) then .alert
  else if type = .boating ∨ type = .crime then .advisory
  else if type = .accident ∨ type = .advisory then .advisory
  else .info

/-- The keyword groups of `normalizeIncidentType`, in the priority order the
source tests them. -/
def keywordTable : List (List String × IncidentCategory) :=
  [(["boat", "marine", "watercraft"], .boating),
   (["fire", "blaze", "burn"], .fire),
   (["accident", "crash", "collision"], .accident),
   (["crime", "arrest", "theft", "police"], .crime),
   (["advisory", "warning", "alert"], .advisory)]

/-- Specification-side restatement of the classifier: test the keyword groups
in priority order, first group with a matching substring wins, default
`other`. -/
def firstKeywordMatch (text : String) :
    List (List String × IncidentCategory) → IncidentCategory
  | [] => .other
  | (kws, cat) :: rest =>
    if kws.any (fun k => includes text k) then cat else firstKeywordMatch text rest

/-- Specification-side classifier over the fixed table. -/
def specClassify (text : String) : IncidentCategory :=
  firstKeywordMatch text keywordTable

/-- C1: `normalizeIncidentType` lower-cases the concatenation of type hint,
title and summary and tests the keyword groups in the fixed priority order
boating, fire, accident, crime, advisory, first match winning, with default
`other` (stated as equality with the specification-side classifier); its
result is always one of the six fixed categories; any text containing
`"boat"` is classified `boating` (in particular text containing both
`"boat"` and `"fire"`); and the classification is deterministic. -/
theorem normalizeIncidentType_correct (type title : String) (summary : Option String) :
    normalizeIncidentType type title summary
        = specClassify (incidentText type title summary)
      ∧ normalizeIncidentType type title summary
          ∈ [IncidentCategory.crime, .accident, .boating, .fire, .advisory, .other]
      ∧ (includes (incidentText type title summary) "boat" = true →
          normalizeIncidentType type title summary = .boating)
      ∧ (∀ type2 title2 summary2, type = type2 → title = title2 → summary = summary2 →
          normalizeIncidentType type title summary
            = normalizeIncidentType type2 title2 summary2) := by
  refine ⟨?_, ?_, ?_, ?_⟩
  · simp only [normalizeIncidentType, specClassify, firstKeywordMatch, keywordTable,
      List.any_cons, List.any_nil, Bool.or_false, Bool.or_assoc]
  · unfold normalizeIncidentType
    repeat' split
    all_goals simp
  · intro h
    simp [normalizeIncidentType, h]
  · intro type2 title2 summary2 h1 h2 h3
    rw [h1, h2, h3]

/-- C1 witness: a concrete run discharging the substring hypothesis. -/
theorem normalizeIncidentType_correct_witness :
    normalizeIncidentType "" "Boat fire near the dock" none = IncidentCategory.boating :=
  (normalizeIncidentType_correct "" "Boat fire near the dock" none).2.2.1 (by decide)

/-- C2: `determineIncidentSeverity` maps fire to `alert`; accident to `alert`
exactly when the lowered title+summary contains `"fatal"` or `"serious"` and
to `advisory` otherwise; boating, crime and advisory to `advisory`; and the
remaining category (`other`) to `info`.  On title
`"House fire reported near Main St"` with empty summary the classifier
pipeline yields category `fire` and severity `alert`. -/
theorem determineIncidentSeverity_correct (type : IncidentCategory) (title : String)
    (summary : Option String) :
    determineIncidentSeverity type title summary
        = (match type with
            | .fire => .alert
            | .accident =>
              if includes (severityText title summary) "fatal"
                  || includes (severityText title summary) "serious" then .alert
              else .advisory
            | .boating => .advisory
            | .crime => .advisory
            | .advisory => .advisory
            | .other => .info)
      ∧ normalizeIncidentType "" "House fire reported near Main St" (some "") = .fire
      ∧ determineIncidentSeverity .fire "House fire reported near Main St" (some "")
          = .alert := by
  refine ⟨?_, by decide, by decide⟩
  cases type <;> simp [determineIncidentSeverity]

/-! ## `src/lib/sanitize.ts` -/

/-- The character class of the JavaScript `\s` regex escape (which is also the
set trimmed by `String.prototype.trim`): space, tab, line feed, vertical tab,
form feed, carriage return, NBSP, and the Unicode space separators. -/
def isJsWhite (c : Char) : Bool :=
  c.toNat == 0x20 || c.toNat == 0x9 || c.toNat == 0xa || c.toNat == 0xb
    || c.toNat == 0xc || c.toNat == 0xd || c.toNat == 0xa0 || c.toNat == 0x1680
    || (decide (0x2000 ≤ c.toNat) && decide (c.toNat ≤ 0x200a))
    || c.toNat == 0x2028 || c.toNat == 0x2029 || c.toNat == 0x202f
    || c.toNat == 0x205f || c.toNat == 0x3000 || c.toNat == 0xfeff

/-- `url.trim()` on the character list. -/
def jsTrimList (l : List Char) : List Char :=
  ((l.dropWhile isJsWhite).reverse.dropWhile isJsWhite).reverse

/-- `url.trim()`. -/
def jsTrim (s : String) : String :=
  ⟨jsTrimList s.data⟩

/-- `s.startsWith(pat)`. -/
def startsWithStr (s pat : String) : Bool :=
  pat.data.isPrefixOf s.data

/-- The blocked scheme list of `sanitize.ts` line 93. -/
def dangerousSchemes : List String :=
  ["javascript:", "data:", "vbscript:", "file:"]

/-- The test `trimmed.match(/^(https?:\/\/|\/)/i)` of `sanitize.ts` line 103:
the trimmed URL starts (case-insensitively) with `http://`, `https://`, or a
slash. -/
def allowedUrlStart (trimmed : String) : Bool :=
  startsWithStr (jsToLower trimmed) "http://"
    || startsWithStr (jsToLower trimmed) "https://"
    || startsWithStr (jsToLower trimmed) "/"

/-- `sanitizeUrl` (`sanitize.ts` lines 85-108). -/
def sanitizeUrl (url : String) : String :=
  if url = "" then ""
  else if dangerousSchemes.any (fun scheme => startsWithStr (jsToLower (jsTrim url)) scheme)
    then "#"
  else if allowedUrlStart (jsTrim url) then jsTrim url
  else "#"

theorem dropWhile_head_false (p : Char → Bool) :
    ∀ (l : List Char) (c : Char) (cs : List Char),
      List.dropWhile p l = c :: cs → p c = false := by
  intro l
  induction l with
  | nil => intro c cs h; simp [List.dropWhile] at h
  | cons a as ih =>
    intro c cs h
    rw [List.dropWhile_cons] at h
    by_cases ha : p a = true
    · rw [if_pos ha] at h
      exact ih c cs h
    · rw [if_neg ha] at h
      cases h
      simpa using ha

theorem dropWhile_of_head_false (p : Char → Bool) (c : Char) (cs : List Char)
    (h : p c = false) : List.dropWhile p (c :: cs) = c :: cs := by
  rw [List.dropWhile_cons, if_neg]
  simp [h]

theorem dropWhile_self (p : Char → Bool) (l : List Char) :
    List.dropWhile p (List.dropWhile p l) = List.dropWhile p l := by
  cases h : List.dropWhile p l with
  | nil => rfl
  | cons c cs => exact dropWhile_of_head_false p c cs (dropWhile_head_false p l c cs h)

theorem jsTrimList_head_false (l : List Char) (c : Char) (cs : List Char)
    (h : jsTrimList l = c :: cs) : isJsWhite c = false := by
  have hsplit := List.takeWhile_append_dropWhile isJsWhite (l.dropWhile isJsWhite).reverse
  have hrepr : l.dropWhile isJsWhite
      = jsTrimList l
        ++ ((l.dropWhile isJsWhite).reverse.takeWhile isJsWhite).reverse := by
    conv_lhs => rw [← List.reverse_reverse (l.dropWhile isJsWhite), ← hsplit]
    rw [List.reverse_append]
    rfl
  rw [h] at hrepr
  exact dropWhile_head_false isJsWhite l c _ hrepr

theorem jsTrimList_of_fixed (x : List Char) (h1 : x.dropWhile isJsWhite = x)
    (h2 : x.reverse.dropWhile isJsWhite = x.reverse) : jsTrimList x = x := by
  unfold jsTrimList
  rw [h1, h2, List.reverse_reverse]

theorem jsTrimList_idem (l : List Char) : jsTrimList (jsTrimList l) = jsTrimList l := by
  cases h : jsTrimList l with
  | nil => rfl
  | cons c cs =>
    apply jsTrimList_of_fixed
    · exact dropWhile_of_head_false isJsWhite c cs (jsTrimList_head_false l c cs h)
    · rw [← h]
      have e : (jsTrimList l).reverse
          = (l.dropWhile isJsWhite).reverse.dropWhile isJsWhite := by
        simp [jsTrimList]
      rw [e, dropWhile_self]

theorem jsTrim_idem (s : String) : jsTrim (jsTrim s) = jsTrim s := by
  simp [jsTrim, jsTrimList_idem]

theorem sanitizeUrl_branches (u : String) :
    sanitizeUrl u = "" ∨ sanitizeUrl u = "#"
      ∨ (sanitizeUrl u = jsTrim u
          ∧ (dangerousSchemes.any fun s => startsWithStr (jsToLower (jsTrim u)) s) = false
          ∧ allowedUrlStart (jsTrim u) = true) := by
  unfold sanitizeUrl
  split_ifs with h1 h2 h3
  · exact Or.inl rfl
  · exact Or.inr (Or.inl rfl)
  · exact Or.inr (Or.inr ⟨rfl, by simpa using h2, h3⟩)
  · exact Or.inr (Or.inl rfl)

/-- C6: `sanitizeUrl` is idempotent; its outputs `""` (for empty input) and
`"#"` (for dangerous schemes and non-http(s)/non-root-relative URLs) are fixed
points, and every accepted URL passes through trimmed and otherwise
unchanged. -/
theorem sanitizeUrl_idem (u : String) :
    sanitizeUrl (sanitizeUrl u) = sanitizeUrl u
      ∧ sanitizeUrl "" = ""
      ∧ sanitizeUrl "#" = "#"
      ∧ (sanitizeUrl u ≠ "" → sanitizeUrl u ≠ "#" → sanitizeUrl u = jsTrim u) := by
  refine ⟨?_, by decide, by decide, ?_⟩
  · rcases sanitizeUrl_branches u with h | h | ⟨h, hd, ha⟩
    · rw [h]; decide
    · rw [h]; decide
    · rw [h]
      have hne : jsTrim u ≠ "" := by
        intro he
        rw [he] at ha
        exact absurd ha (by decide)
      simp [sanitizeUrl, jsTrim_idem, hne, hd, ha]
  · intro h1 h2
    rcases sanitizeUrl_branches u with h | h | ⟨h, _, _⟩
    · exact absurd h h1
    · exact absurd h h2
    · exact h

/-- C6 witness: a concrete accepted URL, with both hypotheses discharged. -/
theorem sanitizeUrl_idem_witness :
    sanitizeUrl " https://example.com/a " = jsTrim " https://example.com/a " :=
  (sanitizeUrl_idem " https://example.com/a ").2.2.2 (by decide) (by decide)

/-- Helper for the tag-stripping regex `/<[^>]*>/g`: drop everything up to
and including the first `>`, or report that no `>` follows. -/
def dropThroughGt : List Char → Option (List Char)
  | [] => none
  | c :: cs => if c = '>' then some cs else dropThroughGt cs

/-- `html.replace(/<[^>]*>/g, '')` (`sanitize.ts` line 16).  A match runs from
a `<` to the first following `>`; a `<` with no later `>` cannot start a
match (and then no later position can match either).  The fuel argument, set
to the input length by `stripTags`, bounds the recursion; at least one
character is consumed per step, so the fuel is never exhausted. -/
def stripTagsF : Nat → List Char → List Char
  | _, [] => []
  | 0, l => l
  | fuel + 1, c :: cs =>
    if c = '<' then
      match dropThroughGt cs with
      | some rest => stripTagsF fuel rest
      | none => c :: cs
    else c :: stripTagsF fuel cs

/-- `dropThroughGt` never lengthens the list. -/
theorem dropThroughGt_length : ∀ (l rest : List Char),
    dropThroughGt l = some rest → rest.length ≤ l.length := by
  intro l
  induction l with
  | nil => intro rest h; simp [dropThroughGt] at h
  | cons c cs ih =>
    intro rest h
    rw [dropThroughGt] at h
    by_cases hc : c = '>'
    · rw [if_pos hc] at h
      cases h
      simp
    · rw [if_neg hc] at h
      exact Nat.le_succ_of_le (ih rest h)

/-- `s.replace(pat, rep)` for a global regex whose pattern is the literal
string `pat`: scan left to right, replacing each occurrence and resuming
after it.  Fuel as in `stripTagsF`. -/
def replaceAllF (pat rep : List Char) : Nat → List Char → List Char
  | _, [] => []
  | 0, l => l
  | fuel + 1, c :: cs =>
    if pat.isPrefixOf (c :: cs) && !pat.isEmpty then
      rep ++ replaceAllF pat rep fuel (List.drop pat.length (c :: cs))
    else c :: replaceAllF pat rep fuel cs

/-- `s.replace(new RegExp(pat, 'g'), rep)` for a literal pattern. -/
def replaceAll (pat rep l : List Char) : List Char :=
  replaceAllF pat rep l.length l

/-- Splits a leading run of characters satisfying `isD` from the rest. -/
def splitDigits (isD : Char → Bool) : List Char → List Char × List Char
  | [] => ([], [])
  | c :: cs =>
    if isD c then ((splitDigits isD cs).1.cons c, (splitDigits isD cs).2)
    else ([], c :: cs)

/-- Decimal value of a digit run (`parseInt(num, 10)`). -/
def natOfDecDigits (ds : List Char) : Nat :=
  ds.foldl (fun acc c => acc * 10 + (c.toNat - 48)) 0

/-- Hex digit predicate of the regex class `[0-9a-fA-F]`. -/
def isHexDig (c : Char) : Bool :=
  c.isDigit || (decide (97 ≤ c.toNat) && decide (c.toNat ≤ 102))
    || (decide (65 ≤ c.toNat) && decide (c.toNat ≤ 70))

/-- Hex value of a digit run (`parseInt(hex, 16)`). -/
def natOfHexDigits (ds : List Char) : Nat :=
  ds.foldl
    (fun acc c =>
      acc * 16
        + (if c.isDigit then c.toNat - 48
           else if decide (97 ≤ c.toNat) then c.toNat - 87
           else c.toNat - 55))
    0

/-- `String.fromCharCode(n)`: a UTF-16 code unit, i.e. `n` mod 2^16.  (A lone
surrogate is not a Unicode scalar value and is mapped to `'\0'` by
`Char.ofNat`; no property proved here depends on that corner.) -/
def fromCharCode (n : Nat) : Char :=
  Char.ofNat (n % 65536)

/-- `decoded.replace(/&#(\d+);/g, ...)` (`sanitize.ts` line 76): decode
decimal numeric character references.  Fuel as in `stripTagsF`. -/
def decodeDecF : Nat → List Char → List Char
  | _, [] => []
  | 0, l => l
  | fuel + 1, c :: cs =>
    if c = '&' then
      match cs with
      | '#' :: rest =>
        match splitDigits Char.isDigit rest with
        | (d :: ds, sc :: r2) =>
          if sc = ';' then
            fromCharCode (natOfDecDigits (d :: ds)) :: decodeDecF fuel r2
          else '&' :: decodeDecF fuel cs
        | _ => '&' :: decodeDecF fuel cs
      | _ => '&' :: decodeDecF fuel cs
    else c :: decodeDecF fuel cs

/-- `decoded.replace(/&#x([0-9a-fA-F]+);/g, ...)` (`sanitize.ts` line 77):
decode hexadecimal numeric character references. -/
def decodeHexF : Nat → List Char → List Char
  | _, [] => []
  | 0, l => l
  | fuel + 1, c :: cs =>
    if c = '&' then
      match cs with
      | '#' :: 'x' :: rest =>
        match splitDigits isHexDig rest with
        | (d :: ds, sc :: r2) =>
          if sc = ';' then
            fromCharCode (natOfHexDigits (d :: ds)) :: decodeHexF fuel r2
          else '&' :: decodeHexF fuel cs
        | _ => '&' :: decodeHexF fuel cs
      | _ => '&' :: decodeHexF fuel cs
    else c :: decodeHexF fuel cs

/-- The six named-entity replacements of `decodeHtmlEntities`
(`sanitize.ts` lines 61-73), in the insertion order of `entityMap`. -/
def decodeNamed (l : List Char) : List Char :=
  replaceAll "&apos;".data [Char.ofNat 39]
    (replaceAll "&#039;".data [Char.ofNat 39]
      (replaceAll "&quot;".data "\"".data
        (replaceAll "&gt;".data ">".data
          (replaceAll "&lt;".data "<".data
            (replaceAll "&amp;".data "&".data l)))))

/-- Decimal numeric reference pass, fuel instantiated. -/
def decodeDec (l : List Char) : List Char :=
  decodeDecF l.length l

/-- Hexadecimal numeric reference pass, fuel instantiated. -/
def decodeHex (l : List Char) : List Char :=
  decodeHexF l.length l

/-- `decodeHtmlEntities` (`sanitize.ts` lines 59-80): the six named entities
are replaced first, then decimal and hexadecimal numeric references are
decoded. -/
def decodeHtmlEntities (l : List Char) : List Char :=
  decodeHex (decodeDec (decodeNamed l))

/-- The character map of `escapeHtml` (`sanitize.ts` lines 44-54). -/
def escapeChar (c : Char) : List Char :=
  if c = '&' then "&amp;".data
  else if c = '<' then "&lt;".data
  else if c = '>' then "&gt;".data
  else if c = '"' then "&quot;".data
  else if c = Char.ofNat 39 then "&#039;".data
  else [c]

/-- `escapeHtml` (`sanitize.ts` lines 44-54): `text.replace(/[&<>"']/g, ...)`
replaces each of the five reserved characters independently. -/
def escapeHtmlList (l : List Char) : List Char :=
  l.flatMap escapeChar

/-- `sanitized.replace(/\s+/g, ' ')` (`sanitize.ts` line 25): each maximal
whitespace run becomes a single space.  Fuel as in `stripTagsF`. -/
def collapseWsF : Nat → List Char → List Char
  | _, [] => []
  | 0, l => l
  | fuel + 1, c :: cs =>
    if isJsWhite c then ' ' :: collapseWsF fuel (cs.dropWhile isJsWhite)
    else c :: collapseWsF fuel cs

/-- `/\s+/g → ' '` with the fuel instantiated. -/
def collapseWs (l : List Char) : List Char :=
  collapseWsF l.length l

/-- `html.replace(/<[^>]*>/g, '')` with the fuel instantiated. -/
def stripTags (l : List Char) : List Char :=
  stripTagsF l.length l

/-- `sanitizeHtml` (`sanitize.ts` lines 10-28): strip tags, decode entities,
re-escape, collapse whitespace, trim. -/
def sanitizeHtml (html : String) : String :=
  if html = "" then ""
  else
    ⟨jsTrimList
      (collapseWs (escapeHtmlList (decodeHtmlEntities (stripTags html.data))))⟩

/-- `truncateText` (`sanitize.ts` lines 113-123).  `text.substring(0, n)` is
the first `n` UTF-16 code units; the ellipsis marker `"..."` is appended
after the cut. -/
def truncateText (text : String) (maxLength : Nat) : String :=
  if text = "" then ""
  else if text.data.length ≤ maxLength then text
  else ⟨text.data.take maxLength ++ "...".data⟩

theorem mem_dropWhile_sub (p : Char → Bool) :
    ∀ (l : List Char) (c : Char), c ∈ l.dropWhile p → c ∈ l := by
  intro l
  induction l with
  | nil => intro c h; simp at h
  | cons a as ih =>
    intro c h
    rw [List.dropWhile_cons] at h
    by_cases ha : p a = true
    · rw [if_pos ha] at h
      exact List.mem_cons_of_mem a (ih c h)
    · rw [if_neg ha] at h
      exact h

theorem escapeChar_no_angle (a c : Char) (hc : c ∈ escapeChar a) :
    c ≠ '<' ∧ c ≠ '>' := by
  unfold escapeChar at hc
  split_ifs at hc with h1 h2 h3 h4 h5
  · constructor <;> rintro rfl <;> revert hc <;> decide
  · constructor <;> rintro rfl <;> revert hc <;> decide
  · constructor <;> rintro rfl <;> revert hc <;> decide
  · constructor <;> rintro rfl <;> revert hc <;> decide
  · constructor <;> rintro rfl <;> revert hc <;> decide
  · rw [List.mem_singleton] at hc
    subst hc
    exact ⟨h2, h3⟩

theorem escapeHtmlList_no_angle (l : List Char) (c : Char)
    (hc : c ∈ escapeHtmlList l) : c ≠ '<' ∧ c ≠ '>' := by
  rw [escapeHtmlList, List.mem_flatMap] at hc
  obtain ⟨a, _, ha⟩ := hc
  exact escapeChar_no_angle a c ha

theorem collapseWsF_mem : ∀ (fuel : Nat) (l : List Char) (c : Char),
    c ∈ collapseWsF fuel l → c = ' ' ∨ c ∈ l := by
  intro fuel
  induction fuel with
  | zero =>
    intro l c h
    cases l with
    | nil => simp [collapseWsF] at h
    | cons a as => exact Or.inr (by simpa [collapseWsF] using h)
  | succ f ih =>
    intro l c h
    cases l with
    | nil => simp [collapseWsF] at h
    | cons a as =>
      simp only [collapseWsF] at h
      by_cases ha : isJsWhite a = true
      · rw [if_pos ha] at h
        rcases List.mem_cons.mp h with rfl | h2
        · exact Or.inl rfl
        · rcases ih _ c h2 with h3 | h3
          · exact Or.inl h3
          · exact Or.inr (List.mem_cons_of_mem a (mem_dropWhile_sub isJsWhite as c h3))
      · rw [if_neg ha] at h
        rcases List.mem_cons.mp h with rfl | h2
        · exact Or.inr (List.mem_cons_self _ _)
        · rcases ih as c h2 with h3 | h3
          · exact Or.inl h3
          · exact Or.inr (List.mem_cons_of_mem a h3)

theorem string_mk_data (l : List Char) : (⟨l⟩ : String).data = l :=
  rfl

theorem jsTrimList_mem (l : List Char) (c : Char) (hc : c ∈ jsTrimList l) :
    c ∈ l := by
  unfold jsTrimList at hc
  rw [List.mem_reverse] at hc
  have h2 := mem_dropWhile_sub isJsWhite _ c hc
  rw [List.mem_reverse] at h2
  exact mem_dropWhile_sub isJsWhite l c h2

set_option maxHeartbeats 1000000 in
/-- C7: for every input, the output of `sanitizeHtml` contains no `<` and no
`>` character: tags are stripped, entities decoded, the five reserved
characters re-escaped, and whitespace collapsed.  In particular on text
containing `<script>alert(1)</script>` the output has no angle brackets. -/
theorem sanitizeHtml_no_angle (s : String) :
    (∀ c ∈ (sanitizeHtml s).data, c ≠ '<' ∧ c ≠ '>')
      ∧ sanitizeHtml "<script>alert(1)</script>" = "alert(1)" := by
  constructor
  · intro c hc
    unfold sanitizeHtml at hc
    split_ifs at hc with h
    · simp at hc
    · rw [string_mk_data] at hc
      have hc3 := jsTrimList_mem _ c hc
      rcases collapseWsF_mem _ _ c hc3 with rfl | hc4
      · exact ⟨by decide, by decide⟩
      · exact escapeHtmlList_no_angle _ c hc4
  · decide

/-- C8 counterexample: `truncateText("abcd", 2)` is `"ab..."`, of length 5,
which is not capped at the bound 2. -/
theorem truncateText_not_capped :
    truncateText "abcd" 2 = "ab..."
      ∧ (truncateText "abcd" 2).data.length = 5
      ∧ ¬ (truncateText "abcd" 2).data.length ≤ 2 := by
  decide

/-- C8 (amended): `truncateText(text, n)` returns `text` unchanged when its
length is at most `n`; otherwise it returns the first `n` characters with the
three-character ellipsis marker appended, so the result has length `n + 3`
(not `n`); empty input yields the empty string, and the function is total. -/
theorem truncateText_correct (text : String) (n : Nat) :
    (text.data.length ≤ n → truncateText text n = text)
      ∧ (¬ text.data.length ≤ n →
          truncateText text n = ⟨text.data.take n ++ "...".data⟩
            ∧ (truncateText text n).data.length = n + 3)
      ∧ truncateText "" n = "" := by
  refine ⟨?_, ?_, by simp [truncateText]⟩
  · intro h
    unfold truncateText
    split_ifs with h1
    · exact h1.symm
    · rfl
  · intro h
    have hne : text ≠ "" := by
      intro he
      rw [he] at h
      simp at h
    constructor
    · unfold truncateText
      rw [if_neg hne, if_neg h]
    · unfold truncateText
      rw [if_neg hne, if_neg h]
      simp only [List.length_append, List.length_take]
      have : ("...".data).length = 3 := by decide
      rw [this]
      omega

/-- C8 witness: a concrete truncation discharging the length hypothesis. -/
theorem truncateText_correct_witness :
    (truncateText "abcdef" 3).data.length = 3 + 3 :=
  ((truncateText_correct "abcdef" 3).2.1 (by decide)).2

/-! ## `fetchLocalIncidents` (`src/lib/local-intelligence.ts` lines 158-328) -/

/-- The shape of a parsed article/announcement item consumed by
`fetchLocalIncidents` (fields read from the JSON payloads). -/
structure Article where
  id : String
  title : String
  summary : String
  url : String
  publishedAt : String
  deriving DecidableEq, Repr

/-- The aggregated incident record (`LocalIncident`,
`local-intelligence.ts` lines 11-22), coordinates as exact rationals. -/
structure LocalIncident where
  id : String
  title : String
  type : IncidentCategory
  severity : IncidentSeverity
  source : String
  sourceUrl : String
  timestamp : String
  lat : ℚ
  lng : ℚ
  summary : String
  deriving DecidableEq, Repr

/-- The hash of `local-intelligence.ts` line 249:
`article.id.split('').reduce((acc, char) => acc + char.charCodeAt(0), 0)`. -/
def idHash (id : String) : Nat :=
  (id.data.map Char.toNat).sum

/-- `spread` (`local-intelligence.ts` line 250). -/
def spreadDeg : ℚ := 0.25

/-- `latOffset` (`local-intelligence.ts` line 252). -/
def fallbackLatOffset (hash : Nat) : ℚ :=
  (((hash % 200 : Nat) : ℚ) - 100) / 400 * spreadDeg

/-- `lngOffset` (`local-intelligence.ts` line 253). -/
def fallbackLngOffset (hash : Nat) : ℚ :=
  (((hash * 13 % 200 : Nat) : ℚ) - 100) / 400 * spreadDeg

/-- The fallback pseudo-coordinate of `local-intelligence.ts` lines 246-256. -/
def fallbackCoord (id : String) : ℚ × ℚ :=
  (38.15 + fallbackLatOffset (idHash id), -92.75 + fallbackLngOffset (idHash id))

/-- The lowered `` `${article.title} ${article.summary}` `` of
`local-intelligence.ts` line 191. -/
def articleLowerText (a : Article) : String :=
  jsToLower (a.title ++ " " ++ a.summary)

/-- The place-name keywords tested by the `if`/`else if` chain of
`local-intelligence.ts` lines 201-245, in source order. -/
def placeKeywords : List String :=
  ["camdenton", "eldon", "osage beach", "osage", "sunrise beach", "lake ozark",
   "bagnell", "versailles", "linn creek", "gravois mills", "laurie",
   "four seasons", "miller county", "miller", "camden county", "camden",
   "morgan county", "morgan", "highway 54", "hwy 54", "hwy54",
   "highway 5", "hwy 5", "hwy5"]

/-- The coordinate assignment of `local-intelligence.ts` lines 195-256. -/
def geocodeArticle (a : Article) : ℚ × ℚ :=
  if includes (articleLowerText a) "camdenton" then (38.20, -92.75)
  else if includes (articleLowerText a) "eldon" then (38.35, -92.58)
  else if includes (articleLowerText a) "osage beach"
      || includes (articleLowerText a) "osage" then (38.13, -92.65)
  else if includes (articleLowerText a) "sunrise beach" then (38.18, -92.78)
  else if includes (articleLowerText a) "lake ozark"
      || includes (articleLowerText a) "bagnell" then (38.20, -92.63)
  else if includes (articleLowerText a) "versailles" then (38.43, -92.84)
  else if includes (articleLowerText a) "linn creek" then (38.03, -92.70)
  else if includes (articleLowerText a) "gravois mills" then (38.20, -92.83)
  else if includes (articleLowerText a) "laurie" then (38.20, -92.83)
  else if includes (articleLowerText a) "four seasons" then (38.20, -92.70)
  else if includes (articleLowerText a) "miller county"
      || includes (articleLowerText a) "miller" then (38.20, -92.60)
  else if includes (articleLowerText a) "camden county"
      || includes (articleLowerText a) "camden" then (38.15, -92.75)
  else if includes (articleLowerText a) "morgan county"
      || includes (articleLowerText a) "morgan" then (38.43, -92.84)
  else if includes (articleLowerText a) "highway 54"
      || includes (articleLowerText a) "hwy 54"
      || includes (articleLowerText a) "hwy54" then (38.20, -92.75)
  else if includes (articleLowerText a) "highway 5"
      || includes (articleLowerText a) "hwy 5"
      || includes (articleLowerText a) "hwy5" then (38.15, -92.70)
  else fallbackCoord a.id

/-- C3: when no place-name substring matches, `fetchLocalIncidents` assigns
the deterministic fallback coordinate computed from the character-code hash
of the item id, and that coordinate always lies within the region center
`(38.15, -92.75)` plus or minus the `0.25`-degree spread on each axis; a
coordinate is always assigned (the geocoder is total). -/
theorem geocodeArticle_fallback (a : Article)
    (h : ∀ k ∈ placeKeywords, includes (articleLowerText a) k = false) :
    geocodeArticle a = fallbackCoord a.id
      ∧ (fallbackCoord a.id).1 = 38.15 + fallbackLatOffset (idHash a.id)
      ∧ (fallbackCoord a.id).2 = -92.75 + fallbackLngOffset (idHash a.id)
      ∧ 38.15 - spreadDeg ≤ (fallbackCoord a.id).1
      ∧ (fallbackCoord a.id).1 ≤ 38.15 + spreadDeg
      ∧ -92.75 - spreadDeg ≤ (fallbackCoord a.id).2
      ∧ (fallbackCoord a.id).2 ≤ -92.75 + spreadDeg
      ∧ (∀ b : Article, b.id = a.id → fallbackCoord b.id = fallbackCoord a.id) := by
  have hlat : -spreadDeg ≤ fallbackLatOffset (idHash a.id)
      ∧ fallbackLatOffset (idHash a.id) ≤ spreadDeg := by
    have hm : idHash a.id % 200 < 200 := Nat.mod_lt _ (by norm_num)
    have h0 : (0 : ℚ) ≤ ((idHash a.id % 200 : Nat) : ℚ) := Nat.cast_nonneg _
    have h1 : ((idHash a.id % 200 : Nat) : ℚ) ≤ 199 := by
      exact_mod_cast Nat.le_of_lt_succ hm
    unfold fallbackLatOffset spreadDeg
    constructor <;> nlinarith
  have hlng : -spreadDeg ≤ fallbackLngOffset (idHash a.id)
      ∧ fallbackLngOffset (idHash a.id) ≤ spreadDeg := by
    have hm : idHash a.id * 13 % 200 < 200 := Nat.mod_lt _ (by norm_num)
    have h0 : (0 : ℚ) ≤ ((idHash a.id * 13 % 200 : Nat) : ℚ) := Nat.cast_nonneg _
    have h1 : ((idHash a.id * 13 % 200 : Nat) : ℚ) ≤ 199 := by
      exact_mod_cast Nat.le_of_lt_succ hm
    unfold fallbackLngOffset spreadDeg
    constructor <;> nlinarith
  refine ⟨?_, rfl, rfl, ?_, ?_, ?_, ?_, ?_⟩
  · simp [geocodeArticle,
      h "camdenton" (by decide), h "eldon" (by decide),
      h "osage beach" (by decide), h "osage" (by decide),
      h "sunrise beach" (by decide), h "lake ozark" (by decide),
      h "bagnell" (by decide), h "versailles" (by decide),
      h "linn creek" (by decide), h "gravois mills" (by decide),
      h "laurie" (by decide), h "four seasons" (by decide),
      h "miller county" (by decide), h "miller" (by decide),
      h "camden county" (by decide), h "camden" (by decide),
      h "morgan county" (by decide), h "morgan" (by decide),
      h "highway 54" (by decide), h "hwy 54" (by decide),
      h "hwy54" (by decide), h "highway 5" (by decide),
      h "hwy 5" (by decide), h "hwy5" (by decide)]
  · have := hlat.1
    show 38.15 - spreadDeg ≤ 38.15 + fallbackLatOffset (idHash a.id)
    linarith
  · have := hlat.2
    show 38.15 + fallbackLatOffset (idHash a.id) ≤ 38.15 + spreadDeg
    linarith
  · have := hlng.1
    show -92.75 - spreadDeg ≤ -92.75 + fallbackLngOffset (idHash a.id)
    linarith
  · have := hlng.2
    show -92.75 + fallbackLngOffset (idHash a.id) ≤ -92.75 + spreadDeg
    linarith
  · intro b hb
    rw [hb]

/-- C3 witness: a concrete article matching no place keyword. -/
theorem geocodeArticle_fallback_witness :
    geocodeArticle ⟨"abc", "zzz event", "qqq", "u", "d"⟩ = fallbackCoord "abc" :=
  (geocodeArticle_fallback ⟨"abc", "zzz event", "qqq", "u", "d"⟩ (by decide)).1

/-- 30 days in milliseconds (`local-intelligence.ts` lines 182 and 286). -/
def retentionMs : Int := 30 * 24 * 60 * 60 * 1000

/-- The per-item date filter of `local-intelligence.ts` lines 177-188 (and
281-292): keep an item iff its `publishedAt` parses to a time value no older
than 30 days before `now`.  The `catch` arm of the surrounding `try` is dead
code: the ECMAScript `Date` constructor does not throw on the JSON string
fields involved, an unparseable date yields the `NaN` time value (`none`
here), which the `isNaN` test catches — skipping the item. -/
def keepByDate (parsed : Option Int) (now : Int) : Bool :=
  match parsed with
  | some t => decide (now - retentionMs ≤ t)
  | none => false

/-- The incident record built for a Lake Expo article
(`local-intelligence.ts` lines 260-271). -/
def mkLakeExpoIncident (a : Article) : LocalIncident :=
  { id := a.id
    title := a.title
    type := normalizeIncidentType "" a.title (some a.summary)
    severity := determineIncidentSeverity
      (normalizeIncidentType "" a.title (some a.summary)) a.title (some a.summary)
    source := "Lake Expo"
    sourceUrl := a.url
    timestamp := a.publishedAt
    lat := (geocodeArticle a).1
    lng := (geocodeArticle a).2
    summary := a.summary }

/-- The incident record built for a city announcement
(`local-intelligence.ts` lines 294-310): fixed Lake Ozark coordinates. -/
def mkCityIncident (a : Article) : LocalIncident :=
  { id := a.id
    title := a.title
    type := normalizeIncidentType "" a.title (some a.summary)
    severity := determineIncidentSeverity
      (normalizeIncidentType "" a.title (some a.summary)) a.title (some a.summary)
    source := "City of Lake Ozark"
    sourceUrl := a.url
    timestamp := a.publishedAt
    lat := 38.20
    lng := -92.63
    summary := a.summary }

/-- The per-source loop of `local-intelligence.ts` lines 176-272 (Lake Expo):
date-filter, then build incidents, preserving order. -/
def processLakeExpo (parseDate : String → Option Int) (now : Int)
    (arts : List Article) : List LocalIncident :=
  (arts.filter fun a => keepByDate (parseDate a.publishedAt) now).map mkLakeExpoIncident

/-- The per-source loop of `local-intelligence.ts` lines 280-312 (city). -/
def processCity (parseDate : String → Option Int) (now : Int)
    (arts : List Article) : List LocalIncident :=
  (arts.filter fun a => keepByDate (parseDate a.publishedAt) now).map mkCityIncident

/-- The sort key of `local-intelligence.ts` lines 316-318:
`new Date(x.timestamp).getTime()`.  Every aggregated item passed the date
filter, so its timestamp parses; the `getD 0` branch is never exercised
there. -/
def tsKey (parseDate : String → Option Int) (x : LocalIncident) : Int :=
  (parseDate x.timestamp).getD 0

/-- Stable descending insertion: place `x` before the first element whose
key is at most `key x`. -/
def insertDesc (key : LocalIncident → Int) (x : LocalIncident) :
    List LocalIncident → List LocalIncident
  | [] => [x]
  | y :: ys => if key x < key y then y :: insertDesc key x ys else x :: y :: ys

/-- `incidents.sort((a, b) => timeB - timeA)`: the unique stable descending
sort by timestamp (ECMAScript `Array.prototype.sort` is stable, and a stable
sort under a total preorder is unique, so any stable implementation models
it). -/
def sortDesc (key : LocalIncident → Int) (l : List LocalIncident) :
    List LocalIncident :=
  l.foldr (insertDesc key) []

/-- `fetchLocalIncidents` (`local-intelligence.ts` lines 158-328) as a
function of the two settled fetch outcomes (`none` models a rejected fetch, a
non-OK response, or a missing/non-array payload field — each contributes
nothing), the date parser and the current time: concatenate the two
processed sources, Lake Expo first, then sort by timestamp descending. -/
def aggregateIncidents (parseDate : String → Option Int) (now : Int)
    (lakeExpo city : Option (List Article)) : List LocalIncident :=
  sortDesc (tsKey parseDate)
    ((match lakeExpo with
      | some arts => processLakeExpo parseDate now arts
      | none => [])
      ++ (match city with
          | some arts => processCity parseDate now arts
          | none => []))

theorem insertDesc_mem (key : LocalIncident → Int) (x z : LocalIncident) :
    ∀ l, z ∈ insertDesc key x l → z = x ∨ z ∈ l := by
  intro l
  induction l with
  | nil => intro h; simpa [insertDesc] using h
  | cons y ys ih =>
    intro h
    rw [insertDesc] at h
    split_ifs at h
    · rcases List.mem_cons.mp h with rfl | h2
      · exact Or.inr (List.mem_cons_self _ _)
      · rcases ih h2 with h3 | h3
        · exact Or.inl h3
        · exact Or.inr (List.mem_cons_of_mem _ h3)
    · rcases List.mem_cons.mp h with rfl | h2
      · exact Or.inl rfl
      · exact Or.inr h2

theorem insertDesc_pairwise (key : LocalIncident → Int) (x : LocalIncident) :
    ∀ l, l.Pairwise (fun p q => key q ≤ key p) →
      (insertDesc key x l).Pairwise (fun p q => key q ≤ key p) := by
  intro l
  induction l with
  | nil => intro _; simp [insertDesc]
  | cons y ys ih =>
    intro hp
    rw [List.pairwise_cons] at hp
    rw [insertDesc]
    split_ifs with hxy
    · rw [List.pairwise_cons]
      refine ⟨?_, ih hp.2⟩
      intro z hz
      rcases insertDesc_mem key x z ys hz with rfl | h3
      · exact le_of_lt hxy
      · exact hp.1 z h3
    · rw [List.pairwise_cons]
      refine ⟨?_, List.pairwise_cons.mpr hp⟩
      intro z hz
      rcases List.mem_cons.mp hz with rfl | h3
      · exact not_lt.mp hxy
      · exact le_trans (hp.1 z h3) (not_lt.mp hxy)

theorem sortDesc_pairwise (key : LocalIncident → Int) (l : List LocalIncident) :
    (sortDesc key l).Pairwise (fun p q => key q ≤ key p) := by
  induction l with
  | nil => simp [sortDesc]
  | cons x xs ih => exact insertDesc_pairwise key x _ ih

/-- A concrete date parser for the scenarios below (`new Date(...).getTime()`
restricted to two known dates). -/
def demoParseDate : String → Option Int :=
  fun s =>
    if s = "2026-01-01" then some 100
    else if s = "2026-01-02" then some 200
    else none

/-- A concrete announcement published at the earlier demo date. -/
def cityArticleOne : Article :=
  ⟨"c1", "Road advisory", "summary one", "u1", "2026-01-01"⟩

/-- A concrete announcement published at the later demo date. -/
def cityArticleTwo : Article :=
  ⟨"c2", "Water warning", "summary two", "u2", "2026-01-02"⟩

/-- C4 (code behaviour at the date filter): an item whose `publishedAt`
parses to a time within the 30-day retention window is kept; one parsing
older than the window is discarded; one that does not parse (`NaN` time
value) is ALSO discarded — the `catch` arm that would keep it is dead, since
the `Date` constructor never throws on a string.  The aggregated output is
sorted descending by timestamp key. -/
theorem fetchLocalIncidents_dateFilter (parseDate : String → Option Int)
    (now t : Int) (a : Article) :
    (parseDate a.publishedAt = some t → now - retentionMs ≤ t →
        keepByDate (parseDate a.publishedAt) now = true)
      ∧ (parseDate a.publishedAt = some t → t < now - retentionMs →
          keepByDate (parseDate a.publishedAt) now = false)
      ∧ (parseDate a.publishedAt = none →
          keepByDate (parseDate a.publishedAt) now = false
            ∧ processLakeExpo parseDate now [a] = []
            ∧ processCity parseDate now [a] = [])
      ∧ (∀ lakeExpo city, (aggregateIncidents parseDate now lakeExpo city).Pairwise
          (fun p q => tsKey parseDate q ≤ tsKey parseDate p)) := by
  refine ⟨?_, ?_, ?_, ?_⟩
  · intro h1 h2
    rw [h1]
    simpa [keepByDate] using h2
  · intro h1 h2
    rw [h1]
    simp [keepByDate]
    omega
  · intro h1
    rw [h1]
    refine ⟨rfl, ?_, ?_⟩ <;> simp [processLakeExpo, processCity, h1, keepByDate]
  · intro lakeExpo city
    exact sortDesc_pairwise _ _

/-- C4 witness: a concrete unparseable-date article is dropped. -/
theorem fetchLocalIncidents_dateFilter_witness :
    keepByDate ((fun _ => (none : Option Int)) "not-a-date") 0 = false
      ∧ processLakeExpo (fun _ => none) 0 [⟨"a1", "t", "s", "u", "not-a-date"⟩] = [] :=
  ⟨((fetchLocalIncidents_dateFilter (fun _ => none) 0 0
      ⟨"a1", "t", "s", "u", "not-a-date"⟩).2.2.1 rfl).1,
   ((fetchLocalIncidents_dateFilter (fun _ => none) 0 0
      ⟨"a1", "t", "s", "u", "not-a-date"⟩).2.2.1 rfl).2.1⟩

/-- C5: a failed source contributes the empty list and never aborts the
batch: with one source down, the aggregation returns exactly the surviving
source's processed items sorted descending; with both down it returns `[]`
(no error — the function is total).  Concretely, with the city source
returning two valid items and the Lake Expo fetch rejected, the result is
exactly those two items, newest first. -/
theorem fetchLocalIncidents_partialFailure (parseDate : String → Option Int)
    (now : Int) (arts : List Article) :
    aggregateIncidents parseDate now none (some arts)
        = sortDesc (tsKey parseDate) (processCity parseDate now arts)
      ∧ aggregateIncidents parseDate now (some arts) none
          = sortDesc (tsKey parseDate) (processLakeExpo parseDate now arts)
      ∧ aggregateIncidents parseDate now none none = []
      ∧ aggregateIncidents demoParseDate 0 none (some [cityArticleOne, cityArticleTwo])
          = [mkCityIncident cityArticleTwo, mkCityIncident cityArticleOne] := by
  refine ⟨rfl, ?_, rfl, rfl⟩
  simp [aggregateIncidents]

/-! ## Client state handlers of the `Map` component
(`src/lib/weather-alerts.ts` lines 916-1049) -/

/-- `LocationType` (`weather-alerts.ts` / shared location model). -/
inductive LocationType where
  | restaurant
  | marina
  | bar
  deriving DecidableEq, Repr

/-- The `Location` record of the shared location model. -/
structure Location where
  id : String
  name : String
  type : LocationType
  lat : ℚ
  lng : ℚ
  camEmbedUrl : Option String
  isOpen : Option Bool
  deriving Repr

/-- `IncidentType` from `traffic-incidents.ts` line 7. -/
inductive TrafficIncidentType where
  | accident
  | closure
  | construction
  | disabled
  | hazard
  | other
  deriving DecidableEq, Repr

/-- `TrafficIncident` from `traffic-incidents.ts` lines 11-20. -/
structure TrafficIncident where
  id : String
  type : TrafficIncidentType
  description : String
  lat : ℚ
  lng : ℚ
  severity : IncidentSeverity
  timestamp : String
  source : Option String
  deriving Repr

/-- The panel-related client state of the `Map` component
(`weather-alerts.ts` lines 917-925).  A `pendingClear` flag models a
`setTimeout` callback scheduled by a close handler that will clear the
corresponding selection 300 ms later; `fireClear*` below models that
callback running. -/
structure MapState where
  selectedLocation : Option Location
  isPanelOpen : Bool
  selectedIncident : Option TrafficIncident
  isIncidentPanelOpen : Bool
  selectedLocalIncident : Option LocalIncident
  isLocalIncidentPanelOpen : Bool
  pendingClearLocation : Bool
  pendingClearIncident : Bool
  pendingClearLocalIncident : Bool
  deriving Repr

/-- The initial `useState` values (`weather-alerts.ts` lines 917-925). -/
def initialMapState : MapState :=
  { selectedLocation := none
    isPanelOpen := false
    selectedIncident := none
    isIncidentPanelOpen := false
    selectedLocalIncident := none
    isLocalIncidentPanelOpen := false
    pendingClearLocation := false
    pendingClearIncident := false
    pendingClearLocalIncident := false }

/-- `handleMarkerClick` (`weather-alerts.ts` lines 978-981): select the
location and open the location panel; the other two panels are not
touched. -/
def handleMarkerClick (loc : Location) (s : MapState) : MapState :=
  { s with selectedLocation := some loc, isPanelOpen := true }

/-- `handleClosePanel` (lines 983-989): close the panel now, schedule the
selection clear for 300 ms later. -/
def handleClosePanel (s : MapState) : MapState :=
  { s with isPanelOpen := false, pendingClearLocation := true }

/-- The `setTimeout` callback scheduled by `handleClosePanel` firing. -/
def fireClearLocation (s : MapState) : MapState :=
  if s.pendingClearLocation then
    { s with selectedLocation := none, pendingClearLocation := false }
  else s

/-- `handleIncidentClick` (lines 991-998): select the traffic incident, open
its panel, and close the location panel if it was open (net effect: the
location-panel flag ends false either way); the local-incident panel is not
touched. -/
def handleIncidentClick (inc : TrafficIncident) (s : MapState) : MapState :=
  { s with selectedIncident := some inc
           isIncidentPanelOpen := true
           isPanelOpen := false }

/-- `handleCloseIncidentPanel` (lines 1000-1005). -/
def handleCloseIncidentPanel (s : MapState) : MapState :=
  { s with isIncidentPanelOpen := false, pendingClearIncident := true }

/-- The `setTimeout` callback scheduled by `handleCloseIncidentPanel`. -/
def fireClearIncident (s : MapState) : MapState :=
  if s.pendingClearIncident then
    { s with selectedIncident := none, pendingClearIncident := false }
  else s

/-- `handleLocalIncidentClick` (lines 1007-1013): select the local incident,
open its panel, and close both other panels if open. -/
def handleLocalIncidentClick (inc : LocalIncident) (s : MapState) : MapState :=
  { s with selectedLocalIncident := some inc
           isLocalIncidentPanelOpen := true
           isPanelOpen := false
           isIncidentPanelOpen := false }

/-- `handleCloseLocalIncidentPanel` (lines 1015-1020). -/
def handleCloseLocalIncidentPanel (s : MapState) : MapState :=
  { s with isLocalIncidentPanelOpen := false, pendingClearLocalIncident := true }

/-- The `setTimeout` callback scheduled by `handleCloseLocalIncidentPanel`. -/
def fireClearLocalIncident (s : MapState) : MapState :=
  if s.pendingClearLocalIncident then
    { s with selectedLocalIncident := none, pendingClearLocalIncident := false }
  else s

/-- States reachable from the initial state through the panel handlers and
their timeout callbacks. -/
inductive MapReachable : MapState → Prop where
  | init : MapReachable initialMapState
  | markerClick : ∀ s loc, MapReachable s → MapReachable (handleMarkerClick loc s)
  | closePanel : ∀ s, MapReachable s → MapReachable (handleClosePanel s)
  | clearLocation : ∀ s, MapReachable s → MapReachable (fireClearLocation s)
  | incidentClick : ∀ s inc, MapReachable s → MapReachable (handleIncidentClick inc s)
  | closeIncidentPanel : ∀ s, MapReachable s → MapReachable (handleCloseIncidentPanel s)
  | clearIncident : ∀ s, MapReachable s → MapReachable (fireClearIncident s)
  | localIncidentClick : ∀ s inc, MapReachable s →
      MapReachable (handleLocalIncidentClick inc s)
  | closeLocalIncidentPanel : ∀ s, MapReachable s →
      MapReachable (handleCloseLocalIncidentPanel s)
  | clearLocalIncident : ∀ s, MapReachable s → MapReachable (fireClearLocalIncident s)

/-- A concrete location for the panel scenario. -/
def demoLocation : Location :=
  ⟨"l1", "Dock House", .restaurant, 38.2, -92.6, none, none⟩

/-- A concrete local incident for the panel scenario. -/
def demoLocalIncident : LocalIncident :=
  mkCityIncident cityArticleOne

/-- C9 counterexample: opening the local-incident panel and then clicking a
location marker yields a reachable state in which the location panel AND the
local-incident panel are both open — `handleMarkerClick` does not close the
other panels, so at most one panel open does not hold in every reachable
state. -/
theorem twoPanelsOpen_reachable :
    MapReachable
        (handleMarkerClick demoLocation
          (handleLocalIncidentClick demoLocalIncident initialMapState))
      ∧ (handleMarkerClick demoLocation
          (handleLocalIncidentClick demoLocalIncident initialMapState)).isPanelOpen = true
      ∧ (handleMarkerClick demoLocation
          (handleLocalIncidentClick demoLocalIncident
            initialMapState)).isLocalIncidentPanelOpen = true :=
  ⟨.markerClick _ _ (.localIncidentClick _ _ .init), rfl, rfl⟩

/-- C9 (amended): `handleLocalIncidentClick` closes both other panels;
`handleIncidentClick` closes the location panel but leaves the
local-incident panel as it was; `handleMarkerClick` closes neither other
panel; and each close handler closes its panel immediately while the
underlying selection is left in place until the 300 ms timeout callback
fires, which then clears it. -/
theorem panelHandlers_correct (s : MapState) (loc : Location)
    (inc : TrafficIncident) (linc : LocalIncident) :
    ((handleLocalIncidentClick linc s).isLocalIncidentPanelOpen = true
        ∧ (handleLocalIncidentClick linc s).isPanelOpen = false
        ∧ (handleLocalIncidentClick linc s).isIncidentPanelOpen = false)
      ∧ ((handleIncidentClick inc s).isIncidentPanelOpen = true
          ∧ (handleIncidentClick inc s).isPanelOpen = false
          ∧ (handleIncidentClick inc s).isLocalIncidentPanelOpen
              = s.isLocalIncidentPanelOpen)
      ∧ ((handleMarkerClick loc s).isPanelOpen = true
          ∧ (handleMarkerClick loc s).isIncidentPanelOpen = s.isIncidentPanelOpen
          ∧ (handleMarkerClick loc s).isLocalIncidentPanelOpen
              = s.isLocalIncidentPanelOpen)
      ∧ ((handleClosePanel s).isPanelOpen = false
          ∧ (handleClosePanel s).selectedLocation = s.selectedLocation
          ∧ (fireClearLocation (handleClosePanel s)).selectedLocation = none)
      ∧ ((handleCloseIncidentPanel s).isIncidentPanelOpen = false
          ∧ (handleCloseIncidentPanel s).selectedIncident = s.selectedIncident
          ∧ (fireClearIncident (handleCloseIncidentPanel s)).selectedIncident = none)
      ∧ ((handleCloseLocalIncidentPanel s).isLocalIncidentPanelOpen = false
          ∧ (handleCloseLocalIncidentPanel s).selectedLocalIncident
              = s.selectedLocalIncident
          ∧ (fireClearLocalIncident
              (handleCloseLocalIncidentPanel s)).selectedLocalIncident = none) := by
  refine ⟨⟨rfl, rfl, rfl⟩, ⟨rfl, rfl, rfl⟩, ⟨rfl, rfl, rfl⟩, ⟨rfl, rfl, ?_⟩,
    ⟨rfl, rfl, ?_⟩, ⟨rfl, rfl, ?_⟩⟩
  · simp [fireClearLocation, handleClosePanel]
  · simp [fireClearIncident, handleCloseIncidentPanel]
  · simp [fireClearLocalIncident, handleCloseLocalIncidentPanel]

/-- The set of active location-type filters, initialized at
`weather-alerts.ts` line 930 to all three types. -/
def initialActiveTypes : Finset LocationType :=
  {LocationType.restaurant, .marina, .bar}

/-- The new set computed by `toggleTypeFilter` before the emptiness guard
(`weather-alerts.ts` lines 1036-1042): delete the type if present, insert it
otherwise. -/
def toggledSet (t : LocationType) (prev : Finset LocationType) :
    Finset LocationType :=
  if t ∈ prev then prev.erase t else insert t prev

/-- `toggleTypeFilter` (`weather-alerts.ts` lines 1035-1049): the toggled
set, except that a result of size zero is discarded and the previous set
kept. -/
def toggleTypeFilter (t : LocationType) (prev : Finset LocationType) :
    Finset LocationType :=
  if (toggledSet t prev).card = 0 then prev else toggledSet t prev

/-- Filter sets reachable from the initial all-three set by toggling. -/
inductive ActiveTypesReachable : Finset LocationType → Prop where
  | init : ActiveTypesReachable initialActiveTypes
  | toggle : ∀ s t, ActiveTypesReachable s → ActiveTypesReachable (toggleTypeFilter t s)

/-- C10: the active type-filter set starts as all three location types and
is never empty in any reachable state: `toggleTypeFilter` returns the
previous set unchanged whenever the toggled set would be empty. -/
theorem activeTypes_never_empty (s : Finset LocationType)
    (h : ActiveTypesReachable s) :
    s.Nonempty
      ∧ (∀ t, (toggledSet t s).card = 0 → toggleTypeFilter t s = s)
      ∧ initialActiveTypes = {LocationType.restaurant, .marina, .bar} := by
  refine ⟨?_, ?_, rfl⟩
  · induction h with
    | init => exact ⟨.restaurant, by decide⟩
    | toggle s t hs ih =>
      unfold toggleTypeFilter
      split_ifs with hc
      · exact ih
      · exact Finset.card_pos.mp (Nat.pos_of_ne_zero hc)
  · intro t hc
    unfold toggleTypeFilter
    rw [if_pos hc]

/-- C10 witness: one toggle from the initial state leaves a nonempty set. -/
theorem activeTypes_never_empty_witness :
    (toggleTypeFilter LocationType.restaurant initialActiveTypes).Nonempty :=
  (activeTypes_never_empty _ (.toggle _ _ .init)).1

/-- C7 witness: the no-angle-bracket property instantiated at a concrete
input and output character, discharging the membership hypothesis. -/
theorem sanitizeHtml_no_angle_witness : ('a' : Char) ≠ '<' ∧ ('a' : Char) ≠ '>' :=
  (sanitizeHtml_no_angle "a").1 'a' (by decide)
